import Mathlib

/-!
Shallow embedding of `src/deeppresenter/test/validate_html2pptx.py`.

The script validates, for a batch of workspace directories, that the PPTX
produced from per-slide HTML and the PDF produced from the same HTML render
to perceptually equivalent frame images.  External effects (filesystem
queries, the two rendering engines, frame extraction, the embedding model)
are modelled as oracle fields of an `Env` record; Python exceptions are
modelled by the `Except String` monad (an `Except.error` that reaches the
top of `processSlides` is an exception propagating out of the coroutine).
-/

/-! ### Path model

Paths are strings.  `Path.is_absolute`, `Path.suffix`, `Path.with_suffix`
and the `/` join of `pathlib` are modelled on the character list of the
string (POSIX separators, as in the source's runtime environment). -/

/-- Python `workspace / p` for a relative `p` (the source only joins in the
relative branch of each resolution). -/
def joinPath (a b : String) : String := a ++ "/" ++ b

/-- Python `Path.is_absolute()` on POSIX: the path starts with a slash. -/
def pathIsAbsolute (p : String) : Bool :=
  match p.data with
  | c :: _ => c = '/'
  | [] => false

/-- Final path component (Python `Path.name`), as a character list. -/
def pathNameChars (p : String) : List Char :=
  (p.data.reverse.takeWhile (fun c => c ≠ '/')).reverse

/-- Python `Path.suffix`: the extension of the final component including the
dot, `""` when the name has no dot, starts with its only dot, or ends with
the dot. -/
def pathSuffix (p : String) : String :=
  let n := pathNameChars p
  let ext := n.reverse.takeWhile (fun c => c ≠ '.')
  if 0 < ext.length ∧ ext.length + 1 < n.length then
    String.mk ('.' :: ext.reverse)
  else ""

/-- Python `Path.with_suffix s`: drop the current suffix and append `s`. -/
def withSuffix (p suf : String) : String :=
  String.mk (p.data.take (p.data.length - (pathSuffix p).length)) ++ suf

/-- Python `str.lower()` (the source lowercases suffixes before comparing). -/
def strLower (s : String) : String := String.mk (s.data.map Char.toLower)

/-- Python `str.strip()`: drop leading and trailing whitespace. -/
def pyStrip (s : String) : String :=
  String.mk (((s.data.dropWhile Char.isWhitespace).reverse.dropWhile
    Char.isWhitespace).reverse)

/-! ### Data model -/

/-- The parsed `intermediate_output.json` manifest: the keys the source
reads (`slide_html_dir`, `final`, `pptx`), each possibly absent.  In the
source an absent key turns into `""` via `dict.get(key, "")`. -/
structure Intermediate where
  slide_html_dir : Option String
  final : Option String
  pptx : Option String

/-- One drawable element of a slide: `has_text_frame` as reported by
`getattr(shape, "has_text_frame", False)`, and the text of each run of each
paragraph of its text frame, in order. -/
structure Shape where
  has_text_frame : Bool
  paragraphs : List (List String)

/-- A slide is its shape list in document order, a presentation its slides. -/
abbrev Slide := List Shape

abbrev Pptx := List Slide

/-- Structured rendering of the failure reason strings of the source.
Constructor by constructor:
`slideHtmlDirMissing` is the literal string at line 103;
`conversionFailed d` renders the f-string at line 160;
`pptxOpenFailed d` renders the f-string at line 59;
`duplicateText t i s` renders the f-string at lines 81 to 84;
`imageCountMismatch a b` renders the f-string at lines 169 to 171;
`similarityMismatch l r v` renders the f-string at line 51 (the `sim` field
holds the value interpolated into the message). -/
inductive Reason where
  | slideHtmlDirMissing
  | conversionFailed (detail : String)
  | pptxOpenFailed (detail : String)
  | duplicateText (text : String) (slide shape : Nat)
  | imageCountMismatch (pptx pdf : Nat)
  | similarityMismatch (left right : String) (sim : ℝ)

/-! ### Structural validator, `_check_pptx_validity` (lines 55 to 86) -/

/-- Python `set.add`: the sets of the validator are modelled as duplicate
free lists, insertion is a no-op on present elements. -/
def listInsert (t : String) (l : List String) : List String :=
  if t ∈ l then l else t :: l

/-- The run loop of `_check_pptx_validity` (lines 69 to 84) over the runs of
one shape, threading the `seen` and `duplicate_texts` sets; `.error` is the
early `return (False, ...)`.  The `if not text: continue` at lines 74 and 75
is dead code (an empty string already has length below 5) and is omitted. -/
def scanRuns (idx sid : Nat) : List String → List String → List String →
    Except Reason (List String × List String)
  | [], seen, dups => .ok (seen, dups)
  | t :: ts, seen, dups =>
    let text := pyStrip t
    if text.length < 5 then scanRuns idx sid ts seen dups
    else
      let st :=
        if text ∈ seen then (seen, listInsert text dups)
        else (listInsert text seen, dups)
      if 3 ≤ st.2.length then .error (.duplicateText text idx sid)
      else scanRuns idx sid ts st.1 st.2

/-- The shape loop (lines 66 to 84): `sid` is the `enumerate` counter, which
advances on every shape, including shapes without a text frame. -/
def scanShapes (idx : Nat) : List Shape → Nat → List String → List String →
    Except Reason (List String × List String)
  | [], _, seen, dups => .ok (seen, dups)
  | sh :: rest, sid, seen, dups =>
    if sh.has_text_frame then
      match scanRuns idx sid sh.paragraphs.flatten seen dups with
      | .error r => .error r
      | .ok (s, d) => scanShapes idx rest (sid + 1) s d
    else scanShapes idx rest (sid + 1) seen dups

/-- The slide loop (lines 61 to 84): both sets are re-created empty at the
top of every slide iteration (lines 64 and 65). -/
def scanSlides : List Slide → Nat → Except Reason Unit
  | [], _ => .ok ()
  | sl :: rest, idx =>
    match scanShapes idx sl 0 [] [] with
    | .error r => .error r
    | .ok _ => scanSlides rest (idx + 1)

/-- `_check_pptx_validity`: the `Presentation(...)` constructor may raise
(caught at lines 56 to 59); otherwise scan all slides. -/
def checkPptxValidity (p : Except String Pptx) : Bool × Option Reason :=
  match p with
  | .error e => (false, some (.pptxOpenFailed e))
  | .ok slides =>
    match scanSlides slides 0 with
    | .error r => (false, some r)
    | .ok _ => (true, none)

/-- Modelled from the spec (section 4.3), for comparison with
`checkPptxValidity`: the same scan but with the `seen` and duplicate sets
maintained as running state across the entire artifact, so that a run first
seen on one page and repeated on a later page enters the duplicate set. -/
def scanSlidesGlobalSpec : List Slide → Nat → List String → List String →
    Except Reason Unit
  | [], _, _, _ => .ok ()
  | sl :: rest, idx, seen, dups =>
    match scanShapes idx sl 0 seen dups with
    | .error r => .error r
    | .ok (s, d) => scanSlidesGlobalSpec rest (idx + 1) s d

/-- Modelled from the spec (section 4.3): the validator with whole-artifact
running sets, the reading the claim about cross-page duplicates describes. -/
def checkPptxValidityGlobalSpec (slides : Pptx) : Bool × Option Reason :=
  match scanSlidesGlobalSpec slides 0 [] [] with
  | .error r => (false, some r)
  | .ok _ => (true, none)

/-! ### Perceptual comparison, `_compare_images` (lines 40 to 52)

Embedding vectors are lists of reals (the exact-real model of the float
tensors).  `torch.cosine_similarity(a, b, dim=0)` is the dot product over
the product of the Euclidean norms; torch additionally clamps each norm
below by `eps = 1e-8`, a float-level guard against division by zero that
the exact model (like the spec's definition of cosine similarity) omits. -/

/-- Dot product of two vectors, pairing componentwise. -/
noncomputable def dotList (a b : List ℝ) : ℝ :=
  (List.zipWith (fun x y => x * y) a b).sum

/-- Cosine similarity: dot product divided by the product of magnitudes. -/
noncomputable def cosineSim (a b : List ℝ) : ℝ :=
  dotList a b / (Real.sqrt (dotList a a) * Real.sqrt (dotList b b))

/-- Line 21 of the source. -/
noncomputable def SIMILARITY_THRESHOLD : ℝ := 0.8

/-- An embedding dictionary: frame filename to vector, `none` meaning the
key is absent (a lookup then raises `KeyError`). -/
def EmbMap : Type := String → Option (List ℝ)

/-- `_compare_images`: walk the zipped frame lists; look up the left then
the right embedding (lines 47 and 48, a missing key raises), compare the
cosine similarity against the threshold (line 50) and stop at the first
pair below it. -/
noncomputable def compareImages : List String → List String → EmbMap → EmbMap →
    Except String (Option Reason)
  | l :: ls, r :: rs, le, re =>
    (match le l, re r with
    | some lv, some rv =>
      let sim := cosineSim lv rv
      if sim < SIMILARITY_THRESHOLD then
        .ok (some (.similarityMismatch l r sim))
      else compareImages ls rs le re
    | none, _ => .error ("KeyError: " ++ l)
    | some _, none => .error ("KeyError: " ++ r))
  | _, _, _, _ => .ok none

/-! ### The per-workspace task, `_process_slides` (lines 89 to 181) -/

/-- The external world as one workspace task observes it.  Each field is
the outcome of one call across the component boundary; `Except.error`
models that call raising. -/
structure Env where
  /-- `Path.exists()` on the queried path (lines 93 and 102). -/
  fsExists : String → Bool
  /-- Reading and `json.loads`-parsing `intermediate_output.json` (line 96). -/
  intermediateParse : Except String Intermediate
  /-- The sorted `*.html` listing of the slide html directory (line 105). -/
  htmlFiles : List String
  /-- Reading `.input_request.json` and validating it into an
  `InputRequest` (lines 128 to 130); the value is `powerpoint_type`. -/
  inputRequest : Except String String
  /-- `convert_html_to_pptx` (lines 139 to 141). -/
  convertHtmlToPptx : Except String Unit
  /-- `ppt_to_images` (line 147). -/
  pptToImages : Except String Unit
  /-- `PlaywrightConverter.convert_to_pdf` (lines 153 to 158). -/
  convertToPdf : Except String Unit
  /-- `Presentation(pptx_path)` inside `_check_pptx_validity` (line 57). -/
  openPptx : Except String Pptx
  /-- The sorted `*.jpg` listing of the pptx images directory (line 166). -/
  pptxImages : List String
  /-- The sorted `*.jpg` listing of the pdf images directory (line 167). -/
  pdfImages : List String
  /-- `_image_embeddings` on the pptx images directory (line 173). -/
  pptxEmbeddings : Except String EmbMap
  /-- `_image_embeddings` on the pdf images directory (line 174). -/
  pdfEmbeddings : Except String EmbMap

/-- Resolution of `pptx_path` from the manifest (lines 109 to 116): an
explicit `pptx` key wins; else a `final` with suffix `.pptx` is reused; else
a `final` with suffix `.pdf` has its suffix substituted; else the variable
stays `None`. -/
def resolvePptxPath (m : Intermediate) : Option String :=
  match m.pptx with
  | some p => some p
  | none =>
    let finalS := m.final.getD ""
    if strLower (pathSuffix finalS) = ".pptx" then some finalS
    else if strLower (pathSuffix finalS) = ".pdf" then
      some (withSuffix finalS ".pptx")
    else none

/-- `_process_slides` for one workspace.  The result is
`.ok none` for the `return None` paths (nothing to report),
`.ok (some (workspace, reason))` for the failure returns, and
`.error e` for an exception that leaves the coroutine.  Notes kept from the
source: `if not slide_html_dir` (line 98) is dead code because a Python
`Path` is always truthy; when `resolvePptxPath` yields `None`, line 117
(`pptx_path.is_absolute()`) raises `AttributeError`; the `shutil.rmtree`
cleanups run with `ignore_errors=True` and never raise, and their effect is
not observed by the later oracle calls; the semaphore only sequences
concurrency and is not modelled; the aspect ratio is read (and its read can
raise) but is then only passed to the conversion oracles. -/
noncomputable def processSlides (ws : String) (env : Env) :
    Except String (Option (String × Reason)) :=
  if ¬ env.fsExists (joinPath ws "intermediate_output.json") then .ok none
  else match env.intermediateParse with
  | .error e => .error e
  | .ok m =>
    let shd0 := m.slide_html_dir.getD ""
    let shd := if pathIsAbsolute shd0 then shd0 else joinPath ws shd0
    if ¬ env.fsExists shd then .ok (some (ws, .slideHtmlDirMissing))
    else if env.htmlFiles = [] then .ok none
    else match resolvePptxPath m with
    | none => .error "AttributeError: NoneType has no attribute is_absolute"
    | some pp0 =>
      let pptxPath := if pathIsAbsolute pp0 then pp0 else joinPath ws pp0
      let finalS := m.final.getD ""
      let pdf0 :=
        if strLower (pathSuffix finalS) = ".pdf" then finalS
        else withSuffix pptxPath ".pdf"
      let _pdfPath := if pathIsAbsolute pdf0 then pdf0 else joinPath ws pdf0
      match env.inputRequest with
      | .error e => .error e
      | .ok _aspect =>
        match env.convertHtmlToPptx with
        | .error _ => .ok none
        | .ok _ =>
          match env.pptToImages with
          | .error e => .ok (some (ws, .conversionFailed e))
          | .ok _ =>
            match env.convertToPdf with
            | .error e => .ok (some (ws, .conversionFailed e))
            | .ok _ =>
              match checkPptxValidity env.openPptx with
              | (false, r) => .ok (some (ws, r.getD (.pptxOpenFailed "")))
              | (true, _) =>
                if env.pptxImages.length ≠ env.pdfImages.length then
                  .ok (some (ws, .imageCountMismatch env.pptxImages.length
                    env.pdfImages.length))
                else
                  match env.pptxEmbeddings with
                  | .error e => .error e
                  | .ok le =>
                    match env.pdfEmbeddings with
                    | .error e => .error e
                    | .ok re =>
                      match compareImages env.pptxImages env.pdfImages le re with
                      | .error e => .error e
                      | .ok (some r) => .ok (some (ws, r))
                      | .ok none => .ok none

/-! ### The batch driver, `main` (lines 184 to 203)

`as_completed` yields results in completion order; the model processes the
per-workspace results in a fixed list order (one admissible completion
order — the counting and abort behaviour below does not depend on which).
The `workspaces` list stands for the sorted directory listing of
`/opt/workspace` (line 186); the pre-existing quarantine directory removal
(lines 187 and 188) is a filesystem effect with no observable trace in the
collected summary and is not modelled. -/

/-- The optional `sys.argv[1]` cap (lines 185, 189 and 190). -/
def applyCap : Option Nat → List String → List String
  | none, l => l
  | some n, l => l.take n

open Classical in
/-- `counter[error] += 1` on a `defaultdict(int)`, the counter held as an
association list in insertion order.  Key equality is classical only
because `Reason` carries a real number; on the values the source produces
the keys are the rendered reason strings, whose equality is decidable. -/
noncomputable def bump : List (Reason × Nat) → Reason → List (Reason × Nat)
  | [], r => [(r, 1)]
  | (k, n) :: rest, r =>
    if k = r then (k, n + 1) :: rest else (k, n) :: bump rest r

/-- `sum(counter.values())` (line 203). -/
def sumCounts (c : List (Reason × Nat)) : Nat := (c.map Prod.snd).sum

/-- The collected observable outputs of one batch run: the
`.html2pptx.error.txt` marker writes (line 201), the `copytree` quarantine
copies (line 202), and the failure counter (line 200), each in processing
order. -/
structure BatchSummary where
  markers : List (String × Reason)
  quarantined : List String
  counter : List (Reason × Nat)

/-- The result loop of `main` (lines 195 to 202): a `None` result is
skipped; a failure result is counted, its reason written into the
workspace, and the workspace copied to quarantine; an exception raised by a
task propagates out of the loop and aborts the remaining iterations. -/
noncomputable def runBatchAux (acc : BatchSummary) :
    List (Except String (Option (String × Reason))) →
    Except String BatchSummary
  | [] => .ok acc
  | .error e :: _ => .error e
  | .ok none :: rest => runBatchAux acc rest
  | .ok (some (w, r)) :: rest =>
    runBatchAux
      { markers := acc.markers ++ [(w, r)],
        quarantined := acc.quarantined ++ [w],
        counter := bump acc.counter r } rest

/-- `main` given the sorted workspace listing, the optional cap, and the
task body: run every capped workspace's task, aggregate, and report the
printed pair (total errors, total folders) of line 203 next to the
summary. -/
noncomputable def mainModel (workspaces : List String) (cap : Option Nat)
    (task : String → Except String (Option (String × Reason))) :
    Except String (BatchSummary × Nat × Nat) :=
  let ws := applyCap cap workspaces
  match runBatchAux ⟨[], [], []⟩ (ws.map task) with
  | .error e => .error e
  | .ok s => .ok (s, sumCounts s.counter, ws.length)

/-! ### Lemmas about cosine similarity -/

theorem zipWith_mul_self (v : List ℝ) :
    List.zipWith (fun x y => x * y) v v = v.map (fun x => x * x) := by
  induction v with
  | nil => rfl
  | cons a t ih => simp [ih]

theorem dotList_self_nonneg (v : List ℝ) : 0 ≤ dotList v v := by
  unfold dotList
  rw [zipWith_mul_self]
  apply List.sum_nonneg
  intro y hy
  obtain ⟨z, _, rfl⟩ := List.mem_map.mp hy
  exact mul_self_nonneg z

theorem dotList_self_pos (v : List ℝ) (h : ∃ x ∈ v, x ≠ 0) :
    0 < dotList v v := by
  obtain ⟨x, hx, hnz⟩ := h
  unfold dotList
  rw [zipWith_mul_self]
  have h1 : ∀ y ∈ v.map (fun x => x * x), 0 ≤ y := by
    intro y hy
    obtain ⟨z, _, rfl⟩ := List.mem_map.mp hy
    exact mul_self_nonneg z
  calc (0 : ℝ) < x * x := mul_self_pos.mpr hnz
    _ ≤ _ := List.single_le_sum h1 _ (List.mem_map_of_mem _ hx)

theorem dotList_comm (a b : List ℝ) : dotList a b = dotList b a := by
  unfold dotList
  rw [List.zipWith_comm_of_comm]
  intro x y
  ring

theorem threshold_le_one : SIMILARITY_THRESHOLD ≤ 1 := by
  unfold SIMILARITY_THRESHOLD
  norm_num

theorem neg_one_lt_threshold : (-1 : ℝ) < SIMILARITY_THRESHOLD := by
  unfold SIMILARITY_THRESHOLD
  norm_num

theorem cosineSim_ones : cosineSim [(1 : ℝ)] [1] = 1 := by
  simp [cosineSim, dotList]

theorem cosineSim_one_negone : cosineSim [(1 : ℝ)] [-1] = -1 := by
  simp [cosineSim, dotList]

/-- C9: cosine similarity, as the dot product over the product of
magnitudes, has self-similarity one on every non-zero vector and is
symmetric on non-zero vectors. -/
theorem cosine_similarity_self_and_symm :
    (∀ v : List ℝ, (∃ x ∈ v, x ≠ 0) → cosineSim v v = 1) ∧
    (∀ a b : List ℝ, (∃ x ∈ a, x ≠ 0) → (∃ y ∈ b, y ≠ 0) →
      cosineSim a b = cosineSim b a) := by
  constructor
  · intro v hv
    have hd := dotList_self_pos v hv
    unfold cosineSim
    rw [Real.mul_self_sqrt hd.le, div_self hd.ne']
  · intro a b _ _
    unfold cosineSim
    rw [dotList_comm a b, mul_comm]

/-- Witness for C9 at the vectors `[1]`, `[1, 2]` and `[3, 4]`. -/
theorem cosine_similarity_self_and_symm_witness :
    cosineSim [(1 : ℝ)] [1] = 1 ∧
    cosineSim [(1 : ℝ), 2] [3, 4] = cosineSim [3, 4] [1, 2] :=
  ⟨cosine_similarity_self_and_symm.1 [1] ⟨1, by simp, one_ne_zero⟩,
   cosine_similarity_self_and_symm.2 [1, 2] [3, 4]
     ⟨1, by simp, one_ne_zero⟩ ⟨3, by simp, by norm_num⟩⟩

/-! ### Lemmas about `_compare_images` -/

theorem zip_eq_cons_inv {α β : Type} (ls : List α) (rs : List β)
    (p : α × β) (t : List (α × β)) (h : ls.zip rs = p :: t) :
    ∃ ls' rs', ls = p.1 :: ls' ∧ rs = p.2 :: rs' ∧ ls'.zip rs' = t := by
  cases ls with
  | nil => simp at h
  | cons a ls' =>
    cases rs with
    | nil => simp at h
    | cons b rs' =>
      rw [List.zip_cons_cons] at h
      obtain ⟨h1, h2⟩ := List.cons_eq_cons.mp h
      exact ⟨ls', rs', by rw [← h1], by rw [← h1], h2⟩

/-- With total embedding maps, `_compare_images` returns `None` exactly when
every zipped pair clears the threshold. -/
theorem compareImages_total_ok_iff (ls rs : List String)
    (f g : String → List ℝ) :
    compareImages ls rs (fun n => some (f n)) (fun n => some (g n)) = .ok none ↔
      ∀ p ∈ ls.zip rs, SIMILARITY_THRESHOLD ≤ cosineSim (f p.1) (g p.2) := by
  induction ls generalizing rs with
  | nil => simp [compareImages]
  | cons l ls' ih =>
    cases rs with
    | nil => simp [compareImages]
    | cons r rs' =>
      by_cases h : cosineSim (f l) (g r) < SIMILARITY_THRESHOLD
      · simp [compareImages, h, not_le.mpr h]
      · simp [compareImages, h, ih rs', not_lt.mp h]

/-- With total embedding maps, `_compare_images` never raises. -/
theorem compareImages_total_ne_error (ls rs : List String)
    (f g : String → List ℝ) :
    ∃ o, compareImages ls rs (fun n => some (f n)) (fun n => some (g n)) =
      .ok o := by
  induction ls generalizing rs with
  | nil => exact ⟨none, rfl⟩
  | cons l ls' ih =>
    cases rs with
    | nil => exact ⟨none, rfl⟩
    | cons r rs' =>
      by_cases h : cosineSim (f l) (g r) < SIMILARITY_THRESHOLD
      · exact ⟨some (.similarityMismatch l r (cosineSim (f l) (g r))),
          by simp [compareImages, h]⟩
      · obtain ⟨o, ho⟩ := ih rs'
        exact ⟨o, by simp [compareImages, h, ho]⟩

/-- The first pair below the threshold determines the result, whatever the
similarities of the later pairs are. -/
theorem compareImages_first_offender (pre : List (String × String)) :
    ∀ (ls rs : List String) (l r : String) (post : List (String × String))
      (f g : String → List ℝ),
      ls.zip rs = pre ++ (l, r) :: post →
      (∀ p ∈ pre, SIMILARITY_THRESHOLD ≤ cosineSim (f p.1) (g p.2)) →
      cosineSim (f l) (g r) < SIMILARITY_THRESHOLD →
      compareImages ls rs (fun n => some (f n)) (fun n => some (g n)) =
        .ok (some (.similarityMismatch l r (cosineSim (f l) (g r)))) := by
  induction pre with
  | nil =>
    intro ls rs l r post f g hzip _ hlow
    obtain ⟨ls', rs', hl, hr, _⟩ := zip_eq_cons_inv ls rs (l, r) post hzip
    subst hl; subst hr
    simp [compareImages, hlow]
  | cons q pre' ih =>
    intro ls rs l r post f g hzip hpre hlow
    obtain ⟨ls', rs', hl, hr, hzip'⟩ :=
      zip_eq_cons_inv ls rs q (pre' ++ (l, r) :: post) (by simpa using hzip)
    subst hl; subst hr
    have hq : SIMILARITY_THRESHOLD ≤ cosineSim (f q.1) (g q.2) :=
      hpre q (List.mem_cons_self q pre')
    have hrec := ih ls' rs' l r post f g hzip'
      (fun p hp => hpre p (List.mem_cons_of_mem q hp)) hlow
    simp [compareImages, not_lt.mpr hq, hrec]

/-- C7: with equal-length frame lists and their embedding maps, the
comparison passes exactly when every paired cosine similarity reaches the
0.8 threshold, and a failure reports the first offending pair, naming its
frames and its similarity, independently of every later pair. -/
theorem compare_images_threshold_spec (ls rs : List String)
    (f g : String → List ℝ) (hlen : ls.length = rs.length) :
    (compareImages ls rs (fun n => some (f n)) (fun n => some (g n)) =
        .ok none ↔
      ∀ p ∈ ls.zip rs, SIMILARITY_THRESHOLD ≤ cosineSim (f p.1) (g p.2)) ∧
    (∀ (pre : List (String × String)) (l r : String)
        (post : List (String × String)),
      ls.zip rs = pre ++ (l, r) :: post →
      (∀ p ∈ pre, SIMILARITY_THRESHOLD ≤ cosineSim (f p.1) (g p.2)) →
      cosineSim (f l) (g r) < SIMILARITY_THRESHOLD →
      compareImages ls rs (fun n => some (f n)) (fun n => some (g n)) =
        .ok (some (.similarityMismatch l r (cosineSim (f l) (g r))))) :=
  ⟨compareImages_total_ok_iff ls rs f g,
   fun pre l r post hzip hpre hlow =>
     compareImages_first_offender pre ls rs l r post f g hzip hpre hlow⟩

/-- Witness for C7: a mismatching pair (similarity minus one, below 0.8) is
reported, and a clearing pair (similarity one) passes. -/
theorem compare_images_threshold_spec_witness :
    compareImages ["a"] ["b"] (fun _ => some [(1 : ℝ)])
        (fun _ => some [(-1 : ℝ)]) =
      .ok (some (.similarityMismatch "a" "b" (cosineSim [(1 : ℝ)] [-1]))) ∧
    compareImages ["a"] ["b"] (fun _ => some [(1 : ℝ)])
        (fun _ => some [(1 : ℝ)]) = .ok none :=
  ⟨(compare_images_threshold_spec ["a"] ["b"] (fun _ => [(1 : ℝ)])
      (fun _ => [(-1 : ℝ)]) rfl).2 [] "a" "b" [] rfl (by simp)
      (by rw [cosineSim_one_negone]; exact neg_one_lt_threshold),
   (compare_images_threshold_spec ["a"] ["b"] (fun _ => [(1 : ℝ)])
      (fun _ => [(1 : ℝ)]) rfl).1.mpr (by
        intro p hp
        simp only [List.zip_cons_cons, List.zip_nil_right,
          List.mem_singleton] at hp
        subst hp
        rw [cosineSim_ones]
        exact threshold_le_one)⟩

/-! ### Lemmas about the structural validator -/

/-- The slide and shape indices only enter the error payload: a successful
scan of a run list succeeds with the same final sets under any indices. -/
theorem scanRuns_ok_shift (idx sid idx' sid' : Nat) :
    ∀ (ts seen dups : List String) (out : List String × List String),
      scanRuns idx sid ts seen dups = .ok out →
      scanRuns idx' sid' ts seen dups = .ok out := by
  intro ts
  induction ts with
  | nil => intro seen dups out h; simpa [scanRuns] using h
  | cons t ts ih =>
    intro seen dups out h
    by_cases h1 : (pyStrip t).length < 5
    · simp only [scanRuns, h1, if_true] at h ⊢
      exact ih _ _ _ h
    · by_cases h2 : pyStrip t ∈ seen <;>
        simp only [scanRuns, h1, h2, if_true, if_false, ite_true, ite_false] at h ⊢
      · by_cases h3 : 3 ≤ (listInsert (pyStrip t) dups).length <;>
          simp only [h3, if_true, if_false, ite_true, ite_false] at h ⊢
        · exact absurd h (by simp)
        · exact ih _ _ _ h
      · by_cases h3 : 3 ≤ dups.length <;>
          simp only [h3, if_true, if_false, ite_true, ite_false] at h ⊢
        · exact absurd h (by simp)
        · exact ih _ _ _ h

/-- Same index-independence for the shape loop. -/
theorem scanShapes_ok_shift (idx idx' : Nat) :
    ∀ (shs : List Shape) (sid sid' : Nat) (seen dups : List String)
      (out : List String × List String),
      scanShapes idx shs sid seen dups = .ok out →
      scanShapes idx' shs sid' seen dups = .ok out := by
  intro shs
  induction shs with
  | nil => intro sid sid' seen dups out h; simpa [scanShapes] using h
  | cons sh rest ih =>
    intro sid sid' seen dups out h
    by_cases hf : sh.has_text_frame <;>
      simp only [scanShapes, hf, if_true, if_false, ite_true, ite_false] at h ⊢
    · cases k : scanRuns idx sid sh.paragraphs.flatten seen dups with
      | error r => rw [k] at h; simp at h
      | ok st =>
        rw [k] at h
        rw [scanRuns_ok_shift idx sid idx' sid' _ _ _ _ k]
        exact ih _ _ _ _ _ h
    · exact ih _ _ _ _ _ h

theorem checkPptxValidity_ok_iff (sls : Pptx) :
    checkPptxValidity (.ok sls) = (true, none) ↔ scanSlides sls 0 = .ok () := by
  unfold checkPptxValidity
  cases h : scanSlides sls 0 with
  | error r => simp [h]
  | ok u => cases u; simp [h]

/-- The whole-document scan succeeds exactly when each slide's scan,
started from empty sets, succeeds. -/
theorem scanSlides_ok_iff : ∀ (sls : Pptx) (idx : Nat),
    scanSlides sls idx = .ok () ↔
      ∀ sl ∈ sls, ∃ st, scanShapes 0 sl 0 [] [] = .ok st := by
  intro sls
  induction sls with
  | nil => intro idx; simp [scanSlides]
  | cons sl rest ih =>
    intro idx
    constructor
    · intro h sl' hmem
      simp only [scanSlides] at h
      cases k : scanShapes idx sl 0 [] [] with
      | error r => rw [k] at h; simp at h
      | ok st =>
        rw [k] at h
        rcases List.mem_cons.mp hmem with rfl | hmem'
        · exact ⟨st, scanShapes_ok_shift idx 0 _ 0 0 _ _ _ k⟩
        · exact (ih (idx + 1)).mp h sl' hmem'
    · intro h
      obtain ⟨st, hst⟩ := h sl (List.mem_cons_self _ _)
      have hsl : scanShapes idx sl 0 [] [] = .ok st :=
        scanShapes_ok_shift 0 idx _ 0 0 _ _ _ hst
      simp only [scanSlides, hsl]
      exact (ih (idx + 1)).mpr (fun sl' hm => h sl' (List.mem_cons_of_mem _ hm))

/-- A two-page document whose three long runs all reappear on the second
page: with whole-artifact sets this is three distinct repeats, with
per-page sets it is none. -/
def crossPageDoc : Pptx :=
  [[⟨true, [["AAAAA", "BBBBB", "CCCCC"]]⟩],
   [⟨true, [["AAAAA", "BBBBB", "CCCCC"]]⟩]]

/-- Counterexample to C3: the validator of the source accepts a document
whose every long run is first seen on page 0 and repeated on page 1, while
the whole-artifact running-set validator described by the claim rejects it;
the sets are therefore reset at page boundaries. -/
theorem cross_page_duplicates_not_flagged :
    checkPptxValidity (.ok crossPageDoc) = (true, none) ∧
    checkPptxValidityGlobalSpec crossPageDoc =
      (false, some (.duplicateText "CCCCC" 1 0)) :=
  ⟨rfl, rfl⟩

/-- C3 as amended: the seen and duplicate sets are reset at every page
boundary, so the validator accepts a document exactly when it accepts each
page in isolation; repetition across pages is invisible to it. -/
theorem validator_state_resets_per_page (slides : Pptx) :
    checkPptxValidity (.ok slides) = (true, none) ↔
      ∀ sl ∈ slides, checkPptxValidity (.ok [sl]) = (true, none) := by
  rw [checkPptxValidity_ok_iff, scanSlides_ok_iff]
  refine forall₂_congr (fun sl _ => ?_)
  rw [checkPptxValidity_ok_iff, scanSlides_ok_iff]
  simp

/-- One page carrying the same five-character run on three distinct
shapes. -/
def tripleSameDoc : Pptx :=
  [[⟨true, [["AAAAA"]]⟩, ⟨true, [["AAAAA"]]⟩, ⟨true, [["AAAAA"]]⟩]]

/-- Counterexample to C4: the same qualifying run on 3 distinct shapes does
not fail the validator — a set only records the text once, so the duplicate
set stays at size 1 and never reaches the size-3 trigger. -/
theorem same_text_on_three_shapes_passes :
    checkPptxValidity (.ok tripleSameDoc) = (true, none) ∧
    checkPptxValidity (.ok tripleSameDoc) ≠
      (false, some (.duplicateText "AAAAA" 0 2)) := by
  refine ⟨rfl, fun h => ?_⟩
  rw [show checkPptxValidity (.ok tripleSameDoc) = (true, none) from rfl] at h
  simp at h

/-- C4 as amended: the failure trigger is 3 distinct qualifying runs each
repeated on one page (here each on two shapes), reported with the third
such text and the shape on which it is reached; one and the same run
repeated on 3 shapes, or a run repeated on only 2 shapes, does not fail. -/
theorem three_distinct_duplicates_fail (t1 t2 t3 : String)
    (h1 : pyStrip t1 = t1) (h2 : pyStrip t2 = t2) (h3 : pyStrip t3 = t3)
    (l1 : 5 ≤ t1.length) (l2 : 5 ≤ t2.length) (l3 : 5 ≤ t3.length)
    (n12 : t1 ≠ t2) (n13 : t1 ≠ t3) (n23 : t2 ≠ t3) :
    checkPptxValidity
        (.ok [[⟨true, [[t1, t2, t3]]⟩, ⟨true, [[t1, t2, t3]]⟩]]) =
      (false, some (.duplicateText t3 0 1)) ∧
    checkPptxValidity
        (.ok [[⟨true, [[t1]]⟩, ⟨true, [[t1]]⟩, ⟨true, [[t1]]⟩]]) =
      (true, none) ∧
    checkPptxValidity (.ok [[⟨true, [[t1]]⟩, ⟨true, [[t1]]⟩]]) =
      (true, none) := by
  refine ⟨?_, ?_, ?_⟩ <;>
    simp [checkPptxValidity, scanSlides, scanShapes, scanRuns, listInsert,
      h1, h2, h3, not_lt.mpr l1, not_lt.mpr l2, not_lt.mpr l3,
      n12, n13, n23, Ne.symm n12, Ne.symm n13, Ne.symm n23]

/-- Witness for C4 as amended, at three concrete distinct runs. -/
theorem three_distinct_duplicates_fail_witness :
    checkPptxValidity
        (.ok [[⟨true, [["AAAAA", "BBBBB", "CCCCC"]]⟩,
               ⟨true, [["AAAAA", "BBBBB", "CCCCC"]]⟩]]) =
      (false, some (.duplicateText "CCCCC" 0 1)) ∧
    checkPptxValidity
        (.ok [[⟨true, [["AAAAA"]]⟩, ⟨true, [["AAAAA"]]⟩,
               ⟨true, [["AAAAA"]]⟩]]) = (true, none) ∧
    checkPptxValidity
        (.ok [[⟨true, [["AAAAA"]]⟩, ⟨true, [["AAAAA"]]⟩]]) = (true, none) :=
  three_distinct_duplicates_fail "AAAAA" "BBBBB" "CCCCC"
    (by decide) (by decide) (by decide) (by decide) (by decide) (by decide)
    (by decide) (by decide) (by decide)

/-! ### Concrete environments and evaluation lemmas for `_process_slides` -/

/-- A manifest with a markup directory and an explicit pptx target. -/
def manifestA : Intermediate := ⟨some "slides", none, some "deck.pptx"⟩

/-- A fully healthy workspace: manifest present, markup present, both
conversions succeed, the document opens empty of defects, one frame pair
whose embeddings coincide. -/
noncomputable def envPass : Env :=
  ⟨fun _ => true, .ok manifestA, ["0001.html"], .ok "16:9", .ok (), .ok (),
   .ok (), .ok [], ["0001.jpg"], ["0001.jpg"],
   .ok fun _ => some [1], .ok fun _ => some [1]⟩

/-- The healthy workspace with no manifest file. -/
noncomputable def envNoManifest : Env :=
  { envPass with fsExists := fun _ => false }

/-- The healthy workspace whose manifest read raises in `json.loads`. -/
noncomputable def envParseError : Env :=
  { envPass with intermediateParse := .error "boom" }

/-- The healthy workspace whose html-to-pptx conversion raises. -/
noncomputable def envHtmlConvError : Env :=
  { envPass with convertHtmlToPptx := .error "html2pptx raised" }

theorem compareImages_pass_pair :
    compareImages ["0001.jpg"] ["0001.jpg"] (fun _ => some [(1 : ℝ)])
      (fun _ => some [(1 : ℝ)]) = .ok none := by
  simp [compareImages, cosineSim_ones, not_lt.mpr threshold_le_one]

theorem processSlides_envPass : processSlides "w" envPass = .ok none := by
  simp [processSlides, envPass, manifestA, resolvePptxPath,
    checkPptxValidity, scanSlides, compareImages_pass_pair]

theorem processSlides_envNoManifest :
    processSlides "w" envNoManifest = .ok none := rfl

/-- Counterexample to C1: a manifest whose parse raises leaves the task as
an exception, and (in completion order) that exception aborts the batch
loop with the remaining, perfectly healthy workspace unprocessed — there is
no quarantine or marker path for it. -/
theorem parse_error_aborts_batch :
    processSlides "w" envParseError = .error "boom" ∧
    mainModel ["w", "v"] none
        (fun d => processSlides d (if d = "w" then envParseError else envPass)) =
      .error "boom" :=
  ⟨rfl, rfl⟩

/-- C1 as amended: only exceptions raised by the conversion calls inside
the try block (and the document open, caught inside the validity check) are
contained to a completed outcome — for every outcome of those four oracles
the task completes.  The containment presumes the steps outside every try
succeed: manifest parsing, path resolution (`resolvePptxPath` must not
leave the pptx path as `None`), the input-request read, and the embedding
stage (total maps); when one of those raises the exception leaves the task
and aborts the batch, as the counterexample shows. -/
theorem conversion_and_validity_errors_contained
    (ws : String) (fs : String → Bool) (m : Intermediate)
    (files : List String) (aspect pp : String)
    (c1 c2 c3 : Except String Unit) (po : Except String Pptx)
    (iA iB : List String) (f g : String → List ℝ)
    (hpp : resolvePptxPath m = some pp) :
    ∃ out, processSlides ws
      ⟨fs, .ok m, files, .ok aspect, c1, c2, c3, po, iA, iB,
       .ok (fun n => some (f n)), .ok (fun n => some (g n))⟩ = .ok out := by
  obtain ⟨o, ho⟩ := compareImages_total_ne_error iA iB f g
  by_cases hfs1 : fs (joinPath ws "intermediate_output.json") = true
  · by_cases hfs2 : fs (if pathIsAbsolute (m.slide_html_dir.getD "") then
        m.slide_html_dir.getD "" else joinPath ws (m.slide_html_dir.getD "")) = true
    · by_cases hfil : files = []
      · exact ⟨none, by simp [processSlides, hfs1, hfs2, hfil]⟩
      · cases c1 with
        | error e =>
          exact ⟨none, by simp [processSlides, hfs1, hfs2, hfil, hpp]⟩
        | ok u1 =>
          cases c2 with
          | error e =>
            exact ⟨some (ws, .conversionFailed e),
              by simp [processSlides, hfs1, hfs2, hfil, hpp]⟩
          | ok u2 =>
            cases c3 with
            | error e =>
              exact ⟨some (ws, .conversionFailed e),
                by simp [processSlides, hfs1, hfs2, hfil, hpp]⟩
            | ok u3 =>
              rcases hv : checkPptxValidity po with ⟨b, r⟩
              cases b
              · exact ⟨some (ws, r.getD (.pptxOpenFailed "")),
                  by simp [processSlides, hfs1, hfs2, hfil, hpp, hv]⟩
              · by_cases hcnt : iA.length = iB.length
                · cases o with
                  | none =>
                    exact ⟨none,
                      by simp [processSlides, hfs1, hfs2, hfil, hpp, hv, hcnt, ho]⟩
                  | some r2 =>
                    exact ⟨some (ws, r2),
                      by simp [processSlides, hfs1, hfs2, hfil, hpp, hv, hcnt, ho]⟩
                · exact ⟨some (ws, .imageCountMismatch iA.length iB.length),
                    by simp [processSlides, hfs1, hfs2, hfil, hpp, hv, hcnt]⟩
    · exact ⟨some (ws, .slideHtmlDirMissing),
        by simp [processSlides, hfs1, hfs2]⟩
  · exact ⟨none, by simp [processSlides, hfs1]⟩

/-- Witness for C1 as amended: both conversion oracles and the document
open may raise, the task still completes. -/
theorem conversion_and_validity_errors_contained_witness :
    ∃ out, processSlides "w"
      ⟨fun _ => true, .ok manifestA, ["0001.html"], .ok "16:9",
       .error "conversion exploded", .ok (), .ok (),
       .error "presentation cannot open", ["a.jpg"], [],
       .ok (fun _ => some [(1 : ℝ)]), .ok (fun _ => some [(1 : ℝ)])⟩ =
      .ok out :=
  conversion_and_validity_errors_contained "w" (fun _ => true) manifestA
    ["0001.html"] "16:9" "deck.pptx" (.error "conversion exploded") (.ok ())
    (.ok ()) (.error "presentation cannot open") ["a.jpg"] []
    (fun _ => [(1 : ℝ)]) (fun _ => [(1 : ℝ)]) rfl

/-- Counterexample to C2: an exception from the html-to-pptx conversion is
swallowed by the bare `except` at line 142 and the task returns the
nothing-to-do outcome, not a conversion failure. -/
theorem html_conversion_error_skips :
    processSlides "w" envHtmlConvError = .ok none ∧
    processSlides "w" envHtmlConvError ≠
      .ok (some ("w", .conversionFailed "html2pptx raised")) := by
  refine ⟨rfl, fun h => ?_⟩
  rw [show processSlides "w" envHtmlConvError = .ok none from rfl] at h
  simp at h

/-- C2 as amended: an exception from the frame extraction or from the
page-description conversion yields the failure outcome with reason
`conversion failed: <detail>`; an exception from the html-to-document
conversion instead yields the skip outcome. -/
theorem rendering_failure_outcomes (ws : String) (m : Intermediate)
    (files : List String) (aspect pp e : String)
    (c2 c3 : Except String Unit) (po : Except String Pptx)
    (iA iB : List String) (ea eb : Except String EmbMap)
    (hfiles : files ≠ []) (hpp : resolvePptxPath m = some pp) :
    processSlides ws
        ⟨fun _ => true, .ok m, files, .ok aspect, .error e, c2, c3, po,
         iA, iB, ea, eb⟩ = .ok none ∧
    processSlides ws
        ⟨fun _ => true, .ok m, files, .ok aspect, .ok (), .error e, c3, po,
         iA, iB, ea, eb⟩ = .ok (some (ws, .conversionFailed e)) ∧
    processSlides ws
        ⟨fun _ => true, .ok m, files, .ok aspect, .ok (), .ok (), .error e,
         po, iA, iB, ea, eb⟩ = .ok (some (ws, .conversionFailed e)) := by
  refine ⟨?_, ?_, ?_⟩ <;> simp [processSlides, hfiles, hpp]

/-- Witness for C2 as amended: a raising frame extraction produces the
conversion-failed outcome. -/
theorem rendering_failure_outcomes_witness :
    processSlides "w"
        ⟨fun _ => true, .ok manifestA, ["0001.html"], .ok "16:9", .ok (),
         .error "frame extraction raised", .ok (), .ok [], [], [],
         .ok fun _ => some [(1 : ℝ)], .ok fun _ => some [(1 : ℝ)]⟩ =
      .ok (some ("w", .conversionFailed "frame extraction raised")) :=
  (rendering_failure_outcomes "w" manifestA ["0001.html"] "16:9" "deck.pptx"
    "frame extraction raised" (.ok ()) (.ok ()) (.ok []) [] []
    (.ok fun _ => some [(1 : ℝ)]) (.ok fun _ => some [(1 : ℝ)])
    (by simp) rfl).2.1

/-! ### Lemmas about the batch aggregator -/

/-- A batch whose tasks all complete: the markers written are exactly the
failure results in order, and the quarantined directories are exactly the
failing workspaces. -/
theorem runBatchAux_map_ok (rs : List (Option (String × Reason))) :
    ∀ acc : BatchSummary,
      runBatchAux acc (rs.map .ok) = .ok
        ⟨acc.markers ++ rs.filterMap id,
         acc.quarantined ++ (rs.filterMap id).map Prod.fst,
         List.foldl bump acc.counter ((rs.filterMap id).map Prod.snd)⟩ := by
  induction rs with
  | nil => intro acc; simp [runBatchAux]
  | cons r rest ih =>
    intro acc
    cases r with
    | none => simp [runBatchAux, ih]
    | some p =>
      rcases p with ⟨w, rsn⟩
      simp [runBatchAux, ih]

theorem sumCounts_bump (c : List (Reason × Nat)) (r : Reason) :
    sumCounts (bump c r) = sumCounts c + 1 := by
  induction c with
  | nil => simp [bump, sumCounts]
  | cons kn rest ih =>
    rcases kn with ⟨k, n⟩
    by_cases h : k = r
    · simp [bump, h, sumCounts]
      ring
    · simp only [bump, h, if_false, ite_false]
      simp [sumCounts] at ih ⊢
      omega

theorem sumCounts_foldl (l : List Reason) :
    ∀ c, sumCounts (List.foldl bump c l) = sumCounts c + l.length := by
  induction l with
  | nil => intro c; simp
  | cons r t ih =>
    intro c
    simp only [List.foldl_cons, List.length_cons, ih, sumCounts_bump]
    omega

theorem filterMap_id_length (rs : List (Option (String × Reason))) :
    (rs.filterMap id).length = rs.countP (fun o => o.isSome) := by
  induction rs with
  | nil => rfl
  | cons r t ih => cases r <;> simp [List.filterMap_cons, List.countP_cons, ih]

/-- Counterexample to C5: a workspace whose manifest names a markup
directory that does not exist on disk is not skipped — the task returns the
failure outcome `slide_html_dir missing` (line 103), which the aggregator
markers and quarantines like any failure. -/
theorem missing_markup_dir_is_failure :
    processSlides "w"
        ⟨fun p => !(p == "/slides"),
         .ok ⟨some "/slides", none, some "deck.pptx"⟩, ["0001.html"],
         .ok "16:9", .ok (), .ok (), .ok (), .ok [], [], [],
         .ok fun _ => some [(1 : ℝ)], .ok fun _ => some [(1 : ℝ)]⟩ =
      .ok (some ("w", .slideHtmlDirMissing)) ∧
    processSlides "w"
        ⟨fun p => !(p == "/slides"),
         .ok ⟨some "/slides", none, some "deck.pptx"⟩, ["0001.html"],
         .ok "16:9", .ok (), .ok (), .ok (), .ok [], [], [],
         .ok fun _ => some [(1 : ℝ)], .ok fun _ => some [(1 : ℝ)]⟩ ≠
      .ok none := by
  refine ⟨rfl, fun h => ?_⟩
  rw [show processSlides "w"
      ⟨fun p => !(p == "/slides"),
       .ok ⟨some "/slides", none, some "deck.pptx"⟩, ["0001.html"],
       .ok "16:9", .ok (), .ok (), .ok (), .ok [], [], [],
       .ok fun _ => some [(1 : ℝ)], .ok fun _ => some [(1 : ℝ)]⟩ =
      .ok (some ("w", .slideHtmlDirMissing)) from rfl] at h
  simp at h

/-- C5 as amended: an absent manifest or an empty markup directory is the
skip outcome and contributes no marker and no quarantine copy; an absent
markup directory, by contrast, is the failure outcome
`slide_html_dir missing` (lines 102 and 103). -/
theorem skip_and_missing_dir_outcomes :
    (∀ (ws : String) (env : Env),
      env.fsExists (joinPath ws "intermediate_output.json") = false →
      processSlides ws env = .ok none) ∧
    (∀ (ws : String) (m : Intermediate) (ir : Except String String)
        (c1 c2 c3 : Except String Unit) (po : Except String Pptx)
        (iA iB : List String) (ea eb : Except String EmbMap),
      processSlides ws
        ⟨fun _ => true, .ok m, [], ir, c1, c2, c3, po, iA, iB, ea, eb⟩ =
        .ok none) ∧
    (∀ (ws : String) (fs : String → Bool) (m : Intermediate) (sd : String)
        (files : List String) (ir : Except String String)
        (c1 c2 c3 : Except String Unit) (po : Except String Pptx)
        (iA iB : List String) (ea eb : Except String EmbMap),
      m.slide_html_dir = some sd → pathIsAbsolute sd = true →
      fs (joinPath ws "intermediate_output.json") = true → fs sd = false →
      processSlides ws ⟨fs, .ok m, files, ir, c1, c2, c3, po, iA, iB, ea, eb⟩ =
        .ok (some (ws, .slideHtmlDirMissing))) ∧
    (∀ rs : List (Option (String × Reason)), ∃ s,
      runBatchAux ⟨[], [], []⟩ (rs.map .ok) = .ok s ∧
      s.markers = rs.filterMap id ∧
      s.quarantined = (rs.filterMap id).map Prod.fst) := by
  refine ⟨?_, ?_, ?_, ?_⟩
  · intro ws env h
    simp [processSlides, h]
  · intro ws m ir c1 c2 c3 po iA iB ea eb
    simp [processSlides]
  · intro ws fs m sd files ir c1 c2 c3 po iA iB ea eb hm habs h1 h2
    simp [processSlides, hm, habs, h1, h2]
  · intro rs
    exact ⟨_, runBatchAux_map_ok rs ⟨[], [], []⟩, by simp, by simp⟩

/-- Witness for C5 as amended, applying the skip branch and the
missing-directory branch at concrete inputs. -/
theorem skip_and_missing_dir_outcomes_witness :
    processSlides "w" envNoManifest = .ok none ∧
    processSlides "w"
        ⟨fun p => p == joinPath "w" "intermediate_output.json",
         .ok ⟨some "/slides2", none, some "deck.pptx"⟩, ["0001.html"],
         .ok "16:9", .ok (), .ok (), .ok (), .ok [], [], [],
         .ok fun _ => some [(1 : ℝ)], .ok fun _ => some [(1 : ℝ)]⟩ =
      .ok (some ("w", .slideHtmlDirMissing)) :=
  ⟨skip_and_missing_dir_outcomes.1 "w" envNoManifest rfl,
   skip_and_missing_dir_outcomes.2.2.1 "w" _ _ "/slides2" ["0001.html"]
     (.ok "16:9") (.ok ()) (.ok ()) (.ok ()) (.ok []) [] []
     (.ok fun _ => some [(1 : ℝ)]) (.ok fun _ => some [(1 : ℝ)])
     rfl rfl (by decide) (by decide)⟩

/-- C8: when the two frame listings have different lengths the task fails
with the count mismatch naming both counts, and it does so for every value
of the two embedding oracles — including raising ones — so no embedding and
no pairwise comparison is consulted. -/
theorem count_mismatch_short_circuits (ws : String) (m : Intermediate)
    (files : List String) (aspect pp : String) (slides : Pptx)
    (iA iB : List String) (ea eb : Except String EmbMap)
    (hfiles : files ≠ []) (hpp : resolvePptxPath m = some pp)
    (hval : scanSlides slides 0 = .ok ())
    (hcnt : iA.length ≠ iB.length) :
    processSlides ws
        ⟨fun _ => true, .ok m, files, .ok aspect, .ok (), .ok (), .ok (),
         .ok slides, iA, iB, ea, eb⟩ =
      .ok (some (ws, .imageCountMismatch iA.length iB.length)) := by
  simp [processSlides, checkPptxValidity, hfiles, hpp, hval, hcnt]

/-- Witness for C8: one pptx frame against zero pdf frames fails with the
counts 1 and 0 while both embedding oracles raise. -/
theorem count_mismatch_short_circuits_witness :
    processSlides "w"
        ⟨fun _ => true, .ok manifestA, ["0001.html"], .ok "16:9", .ok (),
         .ok (), .ok (), .ok [], ["0001.jpg"], [],
         .error "embeddings never computed", .error "embeddings never computed"⟩ =
      .ok (some ("w", .imageCountMismatch 1 0)) :=
  count_mismatch_short_circuits "w" manifestA ["0001.html"] "16:9"
    "deck.pptx" [] ["0001.jpg"] [] (.error "embeddings never computed")
    (.error "embeddings never computed") (by simp) rfl rfl (by decide)

/-- Counterexample to C6: a workspace that passes every check returns the
very same nothing-to-report outcome as a skipped one, so the aggregator
writes no marker at all for it — there is no success marker. -/
theorem passing_workspace_gets_no_marker :
    processSlides "w" envPass = .ok none ∧
    mainModel ["w"] none (fun _ => processSlides "w" envPass) =
      .ok (⟨[], [], []⟩, 0, 1) := by
  refine ⟨processSlides_envPass, ?_⟩
  simp [mainModel, runBatchAux, applyCap, sumCounts, processSlides_envPass]

/-- C6 as amended: for a batch whose tasks all complete, the aggregator
writes a marker (the failure reason) and a quarantine copy exactly for the
failure outcomes; passing workspaces return the same `None` outcome as
skipped ones and produce neither a marker nor a quarantine copy. -/
theorem markers_and_quarantine_for_failures :
    (∀ rs : List (Option (String × Reason)), ∃ s,
      runBatchAux ⟨[], [], []⟩ (rs.map .ok) = .ok s ∧
      s.markers = rs.filterMap id ∧
      s.quarantined = (rs.filterMap id).map Prod.fst) ∧
    processSlides "w" envPass = .ok none := by
  refine ⟨fun rs => ⟨_, runBatchAux_map_ok rs ⟨[], [], []⟩, by simp, by simp⟩,
    processSlides_envPass⟩

/-- C10: the printed summary line counts as numerator exactly the
workspaces whose task returned a failure (the per-reason tallies sum to the
number of failures), and as denominator every discovered workspace after
the optional cap, skipped and passed ones included; a passing and a skipped
workspace yield the same result and are indistinguishable in it. -/
theorem summary_counts_failures (dirs : List String) (cap : Option Nat)
    (results : String → Option (String × Reason)) :
    (∃ s, mainModel dirs cap (fun w => .ok (results w)) =
      .ok (s, (applyCap cap dirs).countP (fun w => (results w).isSome),
        (applyCap cap dirs).length)) ∧
    processSlides "w" envPass = processSlides "w" envNoManifest := by
  constructor
  · have hmap : (applyCap cap dirs).map
        (fun w => (Except.ok (results w) :
          Except String (Option (String × Reason)))) =
        ((applyCap cap dirs).map results).map Except.ok := by
      rw [List.map_map]
      rfl
    have hnum : sumCounts (List.foldl bump []
        ((((applyCap cap dirs).map results).filterMap id).map Prod.snd)) =
        (applyCap cap dirs).countP (fun w => (results w).isSome) := by
      rw [sumCounts_foldl, List.length_map, filterMap_id_length]
      simp [sumCounts, List.countP_map, Function.comp_def]
    refine ⟨⟨((applyCap cap dirs).map results).filterMap id,
      (((applyCap cap dirs).map results).filterMap id).map Prod.fst,
      List.foldl bump []
        ((((applyCap cap dirs).map results).filterMap id).map Prod.snd)⟩, ?_⟩
    simp only [mainModel, hmap, runBatchAux_map_ok, List.nil_append]
    rw [hnum]
  · rw [processSlides_envPass, processSlides_envNoManifest]
